import Mathlib

/-!
Verification development for the Telegram expense-entry bot (`src/app.py`).

The bot is a python-telegram-bot `ConversationHandler` with four states
(`CHOOSING`, `TYPING_REPLY`, `TYPING_CHOICE`, `TYPING_APT`), a per-session
mutable dictionary `context.user_data`, a completion handler `done` that
parses the amount with `decimal.Decimal`, fetches a GHS to USD rate, and
submits one record to one of two Airtable endpoints chosen by apartment
code.

The embedding below models:
  - `context.user_data` as an insertion-ordered association list with
    unique keys (Python `dict` semantics for get / set / del / clear);
  - `decimal.Decimal` values as an inductive over exact rationals plus
    infinities and NaN, with the string-constructor grammar from the
    Python `decimal` documentation;
  - the two HTTP calls as oracle parameters (`Except` results): a raised
    exception is an `Except.error`, a returned parsed JSON body is
    `Except.ok`;
  - the `ConversationHandler` dispatch as documented by
    python-telegram-bot: the handlers registered for the current state are
    checked first, and if none of them accepts the update the `fallbacks`
    list is checked.
-/

namespace ExpenseBot

/-- A Python `dict` with `String` keys: insertion-ordered association list,
keys unique in any dictionary the program actually builds. -/
abbrev Dict (α : Type) := List (String × α)

/-- Python `d.get(k)` / `d[k]`: the value bound to `k`, if any. -/
def dictGet {α : Type} (k : String) : Dict α → Option α
  | [] => none
  | (k₁, v) :: rest => if k₁ = k then some v else dictGet k rest

/-- Python `d.get(k, default)`. -/
def dictGetD {α : Type} (k : String) (default : α) (d : Dict α) : α :=
  (dictGet k d).getD default

/-- Python `d[k] = v`: overwrite the binding of `k` in place if present
(the key keeps its position), otherwise append the new binding. -/
def dictSet {α : Type} (k : String) (v : α) : Dict α → Dict α
  | [] => [(k, v)]
  | (k₁, v₁) :: rest =>
      if k₁ = k then (k₁, v) :: rest else (k₁, v₁) :: dictSet k v rest

/-- Python `del d[k]` (and `d.pop(k)`): drop the binding of `k`. The
program only deletes keys it has just checked are present, and its
dictionaries have unique keys, so dropping the first occurrence is exact. -/
def dictErase {α : Type} (k : String) : Dict α → Dict α
  | [] => []
  | (k₁, v₁) :: rest =>
      if k₁ = k then rest else (k₁, v₁) :: dictErase k rest

/-- Key list of a dictionary, in insertion order (`list(d.keys())`). -/
def keys {α : Type} (d : Dict α) : List String :=
  d.map Prod.fst

/-- Python `sep.join(parts)`. -/
def str_join (sep : String) (parts : List String) : String :=
  String.intercalate sep parts

/-- `facts_to_str` (src/app.py lines 50-53): one `"key - value"` line per
entry, joined by newlines, then wrapped as `"\n".join(facts).join(["\n", "\n"])`,
which is a leading newline, the body, and a trailing newline. -/
def facts_to_str (user_data : Dict String) : String :=
  let facts := user_data.map fun kv => kv.1 ++ " - " ++ kv.2
  str_join (str_join "\n" facts) ["\n", "\n"]

/-! ## The `decimal.Decimal` model -/

/-- A Python `decimal.Decimal` value: an exact rational, a signed
infinity, or a NaN. Arithmetic on finite values is modelled exactly; the
default-context rounding of results to 28 significant digits is not
modelled (every numeric fact proved below is decided well before the 28th
significant digit, so that rounding cannot change it). -/
inductive PyDec : Type
  | fin (q : ℚ)
  | inf (neg : Bool)
  | nan
  deriving DecidableEq, Repr

/-- Unary minus on a `Decimal` (used for a leading sign in the string
constructor; the sign of a NaN or of zero carries no weight in this
rational model). -/
def PyDec.neg : PyDec → PyDec
  | .fin q => .fin (-q)
  | .inf b => .inf (!b)
  | .nan => .nan

/-- Multiplication of `Decimal` values, Python semantics: NaN propagates,
infinity times zero is NaN, otherwise infinities multiply with signs. -/
def PyDec.mul : PyDec → PyDec → PyDec
  | .nan, _ => .nan
  | _, .nan => .nan
  | .fin a, .fin b => .fin (a * b)
  | .fin a, .inf s => if a = 0 then .nan else .inf (xor (decide (a < 0)) s)
  | .inf s, .fin b => if b = 0 then .nan else .inf (xor s (decide (b < 0)))
  | .inf s, .inf t => .inf (xor s t)

/-- The natural number denoted by a list of ASCII digits. -/
def digitsToNat (ds : List Char) : Nat :=
  ds.foldl (fun n c => 10 * n + (c.toNat - 48)) 0

/-- Ten to an integer power, as a rational. -/
def qpow10 : Int → ℚ
  | .ofNat n => (10 : ℚ) ^ n
  | .negSucc n => 1 / (10 : ℚ) ^ (n + 1)

/-- The rational `intPart.fracPart` denoted by the two digit groups of a
decimal numeric string. -/
def mantissa (ip fp : List Char) : ℚ :=
  (digitsToNat (ip ++ fp) : ℚ) / (10 : ℚ) ^ fp.length

/-- The exponent part of a decimal numeric string, everything after the
`e` / `E` indicator: an optional sign followed by at least one digit,
consuming the whole remainder. -/
def parseExponent (cs : List Char) : Option Int :=
  match cs with
  | '+' :: rest =>
      if rest ≠ [] ∧ rest.all Char.isDigit then some (digitsToNat rest) else none
  | '-' :: rest =>
      if rest ≠ [] ∧ rest.all Char.isDigit then some (-(digitsToNat rest : Int)) else none
  | rest =>
      if rest ≠ [] ∧ rest.all Char.isDigit then some (digitsToNat rest) else none

/-- The unsigned numeric part of a decimal numeric string:
`digits [. digits]` or `. digits`, optionally followed by an exponent
part, consuming the whole input. Returns the denoted rational. -/
def parseNumeric (cs : List Char) : Option ℚ :=
  let ip := cs.takeWhile Char.isDigit
  match cs.dropWhile Char.isDigit with
  | [] => if ip = [] then none else some ((digitsToNat ip : ℚ))
  | '.' :: rest₁ =>
      let fp := rest₁.takeWhile Char.isDigit
      if ip = [] ∧ fp = [] then none
      else
        match rest₁.dropWhile Char.isDigit with
        | [] => some (mantissa ip fp)
        | e :: rest₂ =>
            if e = 'e' ∨ e = 'E' then
              (parseExponent rest₂).map fun ex => mantissa ip fp * qpow10 ex
            else none
  | e :: rest₂ =>
      if ip ≠ [] ∧ (e = 'e' ∨ e = 'E') then
        (parseExponent rest₂).map fun ex => (digitsToNat ip : ℚ) * qpow10 ex
      else none

/-- The numeric value behind an optional sign: either an infinity keyword,
a NaN keyword (optionally followed by diagnostic digits), or a plain
numeric value. Keywords are case-insensitive. -/
def parseUnsigned (cs : List Char) : Option PyDec :=
  let low := cs.map Char.toLower
  if low = [ 'i', 'n', 'f'] ∨ low = [ 'i', 'n', 'f', 'i', 'n', 'i', 't', 'y'] then
    some (.inf false)
  else
    match low with
    | 'n' :: 'a' :: 'n' :: ds =>
        if ds.all Char.isDigit then some .nan else none
    | 's' :: 'n' :: 'a' :: 'n' :: ds =>
        if ds.all Char.isDigit then some .nan else none
    | _ => (parseNumeric cs).map .fin

/-- Whitespace stripped from both ends (Python `str.strip()` on the
whitespace the program can meet; modelled as ASCII whitespace). -/
def stripWS (cs : List Char) : List Char :=
  ((cs.dropWhile Char.isWhitespace).reverse.dropWhile Char.isWhitespace).reverse

/-- The string constructor `Decimal(s)`: per the Python `decimal`
documentation the input is read "after leading and trailing whitespace
characters, as well as underscores throughout, are removed", then must
match `[sign] (numeric-value | nan)`. `none` models the constructor
raising `InvalidOperation`. (Non-ASCII unicode digits, accepted by
CPython, are not modelled; no claim mentions them.) -/
def parseDecimal (s : String) : Option PyDec :=
  match (stripWS s.data).filter (fun c => c ≠ '_') with
  | '+' :: rest => parseUnsigned rest
  | '-' :: rest => (parseUnsigned rest).map PyDec.neg
  | rest => parseUnsigned rest

/-- The amount parse in `done` (src/app.py lines 185-188):
`try: Decimal(amount_str) except: Decimal(0)` — any constructor failure is
silently replaced by exact zero. -/
def parseAmount (s : String) : PyDec :=
  (parseDecimal s).getD (.fin 0)

/-! ## The record-store client (`update_airtable`) -/

/-- One entry of the `records` array of the Airtable response body:
modelled by whether the object has an `id` key and its value. -/
structure RecordObj : Type where
  id : Option String
  deriving DecidableEq, Repr

/-- The parsed JSON body returned by the record store: `records` is the
optional `records` array. -/
structure AirtableResponse : Type where
  records : Option (List RecordObj)
  deriving DecidableEq, Repr

/-- Endpoint for apartment code `"108"` (src/app.py line 220). -/
def url108 : String :=
  "https://api.airtable.com/v0/appT4yGhNwVtyB8jR/Income%20%26%20Expenses"

/-- Endpoint for apartment code `"103"` (src/app.py line 222). -/
def url103 : String :=
  "https://api.airtable.com/v0/appqfgm6p6MSGLfI3/Income%20%26%20Expenses"

/-- The destination-selection step of `update_airtable` (src/app.py lines
219-224): `"108"` and `"103"` map to their fixed URLs, anything else
raises `ValueError("Invalid apt value")`. -/
def update_airtable_url (apt : String) : Except String String :=
  if apt = "108" then .ok url108
  else if apt = "103" then .ok url103
  else .error "Invalid apt value"

/-- `update_airtable` (src/app.py lines 217-260): select the URL from
`apt` (raising on any other code), then POST the record. The headers, the
clock-derived `Month` / `Date` fields, the JSON payload and the HTTP POST
with `raise_for_status` are abstracted into the `post` oracle, which
receives the chosen URL and the `Expense` amount and either raises
(`Except.error`, covering network errors and non-2xx statuses) or returns
the parsed response body. -/
def update_airtable (_name _expense_type : String) (expense : PyDec)
    (_notes : String) (apt : String)
    (post : String → PyDec → Except String AirtableResponse) :
    Except String AirtableResponse :=
  match update_airtable_url apt with
  | .error e => .error e
  | .ok url => post url expense

/-! ## The exchange-rate client (`get_exchange_rate`) -/

/-- The parsed JSON body returned by the rate service: the optional
`rates` object, a mapping from currency codes to numbers. Each number is
the exact rational value of the binary64 float produced by `response.json()`. -/
structure RatePayload : Type where
  rates : Option (Dict ℚ)
  deriving DecidableEq, Repr

/-- `get_exchange_rate` (src/app.py lines 210-215) applied to the parsed
payload: `data["rates"]` raises `KeyError` when the key is absent,
otherwise `.get("USD", 1.0)` returns the USD rate or defaults to `1.0`. -/
def get_exchange_rate (data : RatePayload) : Except String ℚ :=
  match data.rates with
  | none => .error "KeyError: rates"
  | some r => .ok (dictGetD "USD" 1 r)

/-- The IEEE-754 binary64 value nearest to `0.083`, as an exact rational:
what `response.json()` yields for the JSON literal `0.083`, and hence the
float that `Decimal(exchange_rate)` converts exactly. -/
def rate0083 : ℚ :=
  5980780305148019 / 2 ^ 56

/-! ## The completion procedure (`done`) -/

/-- The field-extraction step of `done` (src/app.py lines 179-183): each
field read from `user_data` with its fixed default. -/
structure Record : Type where
  name : String
  expense_type : String
  amount_str : String
  notes : String
  apt : String
  deriving DecidableEq, Repr

/-- Extraction with defaults, exactly the five `user_data.get` calls of
`done` (src/app.py lines 179-183). -/
def extractRecord (user_data : Dict String) : Record where
  name := dictGetD "Name of Expense" "Unknown" user_data
  expense_type := dictGetD "Expense Type" "Uncategorized" user_data
  amount_str := dictGetD "Amount in GHS" "0" user_data
  notes := dictGetD "Notes" "" user_data
  apt := dictGetD "Apt" "108" user_data

/-- The success test on the store response (src/app.py line 202):
`"records" in response and len(response["records"]) > 0 and "id" in response["records"][0]`. -/
def airtable_success (response : AirtableResponse) : Bool :=
  match response.records with
  | some (r₀ :: _) => r₀.id.isSome
  | _ => false

/-- The `amount_usd` value computed at src/app.py line 192 by `done`, as a
function of the session dictionary (after the entry `del user_data["choice"]`)
and the fetched rate: `Decimal(amount_str)`-with-fallback times
`Decimal(exchange_rate)`. -/
def usd_for (user_data : Dict String) (exchange_rate : ℚ) : PyDec :=
  (parseAmount (extractRecord user_data).amount_str).mul (.fin exchange_rate)

instance {ε α : Type} [DecidableEq ε] [DecidableEq α] : DecidableEq (Except ε α) := fun x y =>
  match x, y with
  | .ok a, .ok b =>
      if h : a = b then .isTrue (by rw [h]) else .isFalse (by intro hh; cases hh; exact h rfl)
  | .error a, .error b =>
      if h : a = b then .isTrue (by rw [h]) else .isFalse (by intro hh; cases hh; exact h rfl)
  | .ok _, .error _ => .isFalse (by intro hh; cases hh)
  | .error _, .ok _ => .isFalse (by intro hh; cases hh)

/-- Outcome of one run of `done`: `result` is the propagated exception
(`.error`) or the reply text sent to the user (`.ok`), and `user_data` is
the session dictionary when the handler is left. -/
structure DoneOutcome : Type where
  result : Except String String
  user_data : Dict String
  deriving DecidableEq, Repr

/-- `done` (src/app.py lines 172-208). `rateResult` is the outcome of the
`get_exchange_rate()` call (an `.error` models the network call raising)
and `post` is the HTTP oracle of `update_airtable`. Steps, as in source:
drop a pending `"choice"`, extract fields with defaults, parse the amount
(failures coerced to zero), fetch the rate, multiply, submit; if the
submission returns a body, reply success or failure and then
`user_data.clear()`; if it raises, the exception propagates and the
clearing step is skipped. -/
def done (ud : Dict String) (rateResult : Except String ℚ)
    (post : String → PyDec → Except String AirtableResponse) : DoneOutcome :=
  let user_data := dictErase "choice" ud
  let r := extractRecord user_data
  let amount_ghs := parseAmount r.amount_str
  match rateResult with
  | .error e => ⟨.error e, user_data⟩
  | .ok exchange_rate =>
      let amount_usd := amount_ghs.mul (.fin exchange_rate)
      match update_airtable r.name r.expense_type amount_usd r.notes r.apt post with
      | .error e => ⟨.error e, user_data⟩
      | .ok response =>
          ⟨.ok (if airtable_success response then "Successfully updated Airtable!"
                else "Failed to update Airtable. Please try again later."),
           []⟩

/-! ## The conversation state machine -/

/-- The four conversation states (src/app.py line 31): `CHOOSING` is the
spec's `Choosing`, `TYPING_REPLY` is `AwaitingFreeText`, `TYPING_CHOICE`
is `AwaitingExpenseTypeChoice`, `TYPING_APT` is `AwaitingAptChoice`. -/
inductive ConvState : Type
  | CHOOSING
  | TYPING_REPLY
  | TYPING_CHOICE
  | TYPING_APT
  deriving DecidableEq, Repr

/-- An inbound update: a text message or an inline-keyboard callback query. -/
inductive TgUpdate : Type
  | message (text : String)
  | callbackQuery (data : String)
  deriving DecidableEq, Repr

/-- The handler that ends up running for an update. -/
inductive Handler : Type
  | regularChoice
  | receivedInformation
  | expenseTypeSelected
  | aptSelected
  | doneHandler
  deriving DecidableEq, Repr

/-- The five field-selector labels matched by the `CHOOSING` regex
`^(Name of Expense|Expense Type|Amount in GHS|Notes|Apt)$` (src/app.py line 273). -/
def fieldSelectors : List String :=
  ["Name of Expense", "Expense Type", "Amount in GHS", "Notes", "Apt"]

/-- `filters.COMMAND`: the message is a bot command (text starting with `/`). -/
def isCommand (t : String) : Bool :=
  match t.data with
  | '/' :: _ => true
  | _ => false

/-- The `fallbacks` list of the `ConversationHandler` (src/app.py line
289): a single `MessageHandler(filters.Regex("^Done$"), done)` — it
accepts a text message equal to `"Done"` and runs `done`. (That
`re.search` with both anchors also tolerates one trailing newline is not
modelled; the claims use the exact text.) -/
def fallbackHandler : TgUpdate → Option Handler
  | .message t => if t = "Done" then some .doneHandler else none
  | .callbackQuery _ => none

/-- `ConversationHandler` dispatch (src/app.py lines 268-290), with the
library semantics documented by python-telegram-bot: the handlers
registered for the current state are checked first, and when none of them
accepts the update the `fallbacks` are checked. Per state: `CHOOSING` has
a `MessageHandler` on the field-selector regex; `TYPING_CHOICE` and
`TYPING_APT` each have a `CallbackQueryHandler`, which accepts only
callback queries; `TYPING_REPLY` has a `MessageHandler` on
`filters.TEXT & ~(filters.COMMAND | filters.Regex("^Done$"))`. -/
def dispatch : ConvState → TgUpdate → Option Handler
  | .CHOOSING, .message t =>
      if t ∈ fieldSelectors then some .regularChoice
      else fallbackHandler (.message t)
  | .CHOOSING, u => fallbackHandler u
  | .TYPING_CHOICE, .callbackQuery _ => some .expenseTypeSelected
  | .TYPING_CHOICE, u => fallbackHandler u
  | .TYPING_APT, .callbackQuery _ => some .aptSelected
  | .TYPING_APT, u => fallbackHandler u
  | .TYPING_REPLY, .message t =>
      if ¬ isCommand t ∧ t ≠ "Done" then some .receivedInformation
      else fallbackHandler (.message t)
  | .TYPING_REPLY, u => fallbackHandler u

/-! ## The free-text handler (`received_information`) -/

/-- `received_information` (src/app.py lines 148-170): read the pending
field from `user_data["choice"]` (Python truthiness: an absent key or an
empty string both fail the `if choice:` test); when present, store the
text under it, delete `"choice"`, and echo the running summary; otherwise
reply with the retry message and change nothing. Either way the handler
returns `CHOOSING`. Result: the session dictionary afterwards, the reply
text, and the returned state. -/
def received_information (ud : Dict String) (text : String) :
    Dict String × String × ConvState :=
  match dictGet "choice" ud with
  | some choice =>
      if choice ≠ "" then
        let ud₁ := dictErase "choice" (dictSet choice text ud)
        (ud₁,
         "Neat! Just so you know, this is what you already told me:" ++
           facts_to_str ud₁ ++
           "You can tell me more, or change your opinion on something.",
         .CHOOSING)
      else
        (ud, "I didn't receive the category. Please try again.", .CHOOSING)
  | none =>
      (ud, "I didn't receive the category. Please try again.", .CHOOSING)

/-! ## Concrete oracles and the submission call of `done` -/

/-- The `update_airtable(...)` call exactly as `done` makes it (src/app.py
line 195): the extracted fields of the session (after the pending
`"choice"` was dropped) and the computed USD amount. -/
def done_submit_call (ud : Dict String) (rate : ℚ)
    (post : String → PyDec → Except String AirtableResponse) :
    Except String AirtableResponse :=
  update_airtable (extractRecord (dictErase "choice" ud)).name
    (extractRecord (dictErase "choice" ud)).expense_type
    (usd_for (dictErase "choice" ud) rate)
    (extractRecord (dictErase "choice" ud)).notes
    (extractRecord (dictErase "choice" ud)).apt post

/-- A store oracle that returns a body with one record carrying an `id`. -/
def postOk : String → PyDec → Except String AirtableResponse :=
  fun _ _ => .ok ⟨some [⟨some "rec123"⟩]⟩

/-- A store oracle that raises on every call. -/
def postErr : String → PyDec → Except String AirtableResponse :=
  fun _ _ => .error "boom"

/-! ## Helper lemmas -/

theorem str_join_pair (sep a b : String) : str_join sep [a, b] = a ++ sep ++ b :=
  rfl

theorem keys_dictSet {α : Type} (k : String) (v : α) (d : Dict α) :
    keys (dictSet k v d) = if k ∈ keys d then keys d else keys d ++ [k] := by
  induction d with
  | nil => simp [dictSet, keys]
  | cons hd tl ih =>
      obtain ⟨k₁, v₁⟩ := hd
      by_cases h : k₁ = k
      · subst h
        simp [dictSet, keys]
      · simp only [keys] at ih
        simp only [dictSet, keys, if_neg h, List.map_cons]
        rw [ih]
        by_cases hm : k ∈ List.map Prod.fst tl
        · simp [List.mem_cons, hm, Ne.symm h]
        · simp [List.mem_cons, hm, Ne.symm h]

theorem length_dictSet {α : Type} (k : String) (v : α) (d : Dict α) :
    (dictSet k v d).length = if k ∈ keys d then d.length else d.length + 1 := by
  have h := congrArg List.length (keys_dictSet k v d)
  simpa [keys, apply_ite List.length] using h

theorem dictGet_dictSet_self {α : Type} (k : String) (v : α) (d : Dict α) :
    dictGet k (dictSet k v d) = some v := by
  induction d with
  | nil => simp [dictSet, dictGet]
  | cons hd tl ih =>
      obtain ⟨k₁, v₁⟩ := hd
      by_cases h : k₁ = k
      · subst h; simp [dictSet, dictGet]
      · simp [dictSet, dictGet, h, ih]

theorem dictGet_dictSet_ne {α : Type} (k₁ k : String) (v : α) (d : Dict α)
    (h : k₁ ≠ k) : dictGet k₁ (dictSet k v d) = dictGet k₁ d := by
  induction d with
  | nil => simp [dictSet, dictGet, Ne.symm h]
  | cons hd tl ih =>
      obtain ⟨k₂, v₂⟩ := hd
      by_cases h₂ : k₂ = k
      · subst h₂
        simp [dictSet, dictGet, Ne.symm h]
      · simp only [dictSet, if_neg h₂, dictGet]
        by_cases h₃ : k₂ = k₁
        · simp [h₃]
        · simp [h₃, ih]

theorem dictGet_dictErase_ne {α : Type} (k k₀ : String) (d : Dict α)
    (h : k ≠ k₀) : dictGet k (dictErase k₀ d) = dictGet k d := by
  induction d with
  | nil => simp [dictErase]
  | cons hd tl ih =>
      obtain ⟨k₁, v₁⟩ := hd
      by_cases h₁ : k₁ = k₀
      · subst h₁
        simp [dictErase, dictGet, Ne.symm h]
      · simp only [dictErase, if_neg h₁, dictGet]
        by_cases h₂ : k₁ = k
        · simp [h₂]
        · simp [h₂, ih]

theorem done_eq (ud : Dict String) (rate : ℚ)
    (post : String → PyDec → Except String AirtableResponse) :
    done ud (.ok rate) post =
      match done_submit_call ud rate post with
      | .error e => ⟨.error e, dictErase "choice" ud⟩
      | .ok response =>
          ⟨.ok (if airtable_success response then "Successfully updated Airtable!"
                else "Failed to update Airtable. Please try again later."),
           []⟩ :=
  rfl

/-! ## Claims -/

/-- C1: in the completion procedure, the session's collected fields are
cleared (and the pending `"choice"` is gone) whenever the store submission
call returns a response — whether the success or the failure reply is
sent — but if the submission call raises, the clearing step is skipped and
every collected field (every key other than `"choice"`) keeps its value. -/
theorem done_clear_on_submit (ud : Dict String) (rate : ℚ)
    (post : String → PyDec → Except String AirtableResponse) :
    (∀ resp, done_submit_call ud rate post = .ok resp →
        (done ud (.ok rate) post).user_data = [] ∧
        (done ud (.ok rate) post).result =
          .ok (if airtable_success resp then "Successfully updated Airtable!"
               else "Failed to update Airtable. Please try again later.")) ∧
    (∀ e, done_submit_call ud rate post = .error e →
        (done ud (.ok rate) post).result = .error e ∧
        (done ud (.ok rate) post).user_data = dictErase "choice" ud ∧
        ∀ k, k ≠ "choice" →
          dictGet k (done ud (.ok rate) post).user_data = dictGet k ud) := by
  constructor
  · intro resp h
    rw [done_eq, h]
    exact ⟨rfl, rfl⟩
  · intro e h
    rw [done_eq, h]
    exact ⟨rfl, rfl, fun k hk => dictGet_dictErase_ne k "choice" ud hk⟩

theorem done_clear_on_submit_witness :
    (done [("Notes", "n")] (.ok 1) postOk).user_data = [] ∧
    (done [("Notes", "n")] (.ok 1) postErr).result = .error "boom" ∧
    dictGet "Notes" (done [("Notes", "n")] (.ok 1) postErr).user_data = some "n" :=
  ⟨((done_clear_on_submit [("Notes", "n")] 1 postOk).1 ⟨some [⟨some "rec123"⟩]⟩ rfl).1,
   ((done_clear_on_submit [("Notes", "n")] 1 postErr).2 "boom" rfl).1,
   by
     have h := ((done_clear_on_submit [("Notes", "n")] 1 postErr).2 "boom" rfl).2.2
       "Notes" (by decide)
     rw [h]
     rfl⟩

/-- C2 counterexample: the claim says a "Done" input arriving in
`TYPING_REPLY` (`AwaitingFreeText`), `TYPING_CHOICE`
(`AwaitingExpenseTypeChoice`) or `TYPING_APT` (`AwaitingAptChoice`) does
not run the completion procedure; on the code, in each of those states no
state handler accepts the "Done" text message (the `TYPING_REPLY` handler
explicitly excludes it, and the callback-query handlers do not accept text
messages), so the fallback runs `done`. -/
theorem done_fallback_outside_choosing :
    dispatch .TYPING_REPLY (.message "Done") = some .doneHandler ∧
    dispatch .TYPING_CHOICE (.message "Done") = some .doneHandler ∧
    dispatch .TYPING_APT (.message "Done") = some .doneHandler := by
  decide

/-- C2 amended: the "Done" text message triggers the completion procedure
from every conversation state — in `CHOOSING` it is unmatched by the
field-selector handler and handled by the fallback, and in the three
awaiting states the state handlers do not accept it either, so the
fallback runs `done` there as well. -/
theorem done_fallback_every_state (st : ConvState) :
    dispatch st (.message "Done") = some .doneHandler := by
  cases st <;> decide

/-- C3 counterexample: with the rate-service payload carrying `0.083`
(which `response.json()` turns into the binary64 float nearest `0.083`)
and collected `AmountInGHS` text `"100"`, the `amount_usd` computed by
`done` is not exactly the decimal `8.3`. -/
theorem usd_amount_not_exact :
    usd_for [("Amount in GHS", "100")] rate0083 ≠ .fin (83 / 10) := by
  have h : usd_for [("Amount in GHS", "100")] rate0083 = .fin (100 * rate0083) := rfl
  rw [h]
  intro hc
  injection hc with hq
  norm_num [rate0083] at hq

/-- C3 amended: the USD amount computed for that payload and amount text
is `100` times the binary64 value nearest `0.083` — strictly greater than
`8.3` but within `10 ^ (-13)` of it — because the rate passes through a
binary float before the `Decimal` conversion, so the product is not
exactly `8.3`. -/
theorem usd_amount_float_rate :
    usd_for [("Amount in GHS", "100")] rate0083 = .fin (100 * rate0083) ∧
    100 * rate0083 ≠ 83 / 10 ∧
    83 / 10 < 100 * rate0083 ∧
    100 * rate0083 < 83 / 10 + 1 / 10 ^ 13 := by
  refine ⟨rfl, ?_, ?_, ?_⟩ <;> norm_num [rate0083]

/-- C4: the running summary renders one `"<FieldName> - <value>"` line per
collected field, in the order in which fields were first set, wrapped in a
leading and a trailing newline; storing a value for a field already
present overwrites it in place — same key list, same length, no duplicate
line — while storing a fresh field appends it at the end. -/
theorem summary_rendering (ud : Dict String) (k v : String) :
    facts_to_str ud =
      "\n" ++ str_join "\n" (ud.map fun kv => kv.1 ++ " - " ++ kv.2) ++ "\n" ∧
    keys (dictSet k v ud) = (if k ∈ keys ud then keys ud else keys ud ++ [k]) ∧
    dictGet k (dictSet k v ud) = some v ∧
    (∀ k₁, k₁ ≠ k → dictGet k₁ (dictSet k v ud) = dictGet k₁ ud) ∧
    (dictSet k v ud).length = (if k ∈ keys ud then ud.length else ud.length + 1) :=
  ⟨rfl, keys_dictSet k v ud, dictGet_dictSet_self k v ud,
   fun k₁ h => dictGet_dictSet_ne k₁ k v ud h, length_dictSet k v ud⟩

theorem summary_rendering_witness :
    dictGet "Apt" (dictSet "Notes" "x" [("Apt", "103")]) = some "103" :=
  (summary_rendering [("Apt", "103")] "Notes" "x").2.2.2.1 "Apt" (by decide)

/-- C5: the completion procedure extracts each field with a fixed default
when it was never collected — name `"Unknown"`, expense type
`"Uncategorized"`, amount text `"0"`, notes `""`, apartment code `"108"` —
and completing with no `Apt` ever selected submits to the `"108"`
endpoint. -/
theorem completion_defaults (ud : Dict String) :
    (dictGet "Name of Expense" ud = none → (extractRecord ud).name = "Unknown") ∧
    (dictGet "Expense Type" ud = none →
      (extractRecord ud).expense_type = "Uncategorized") ∧
    (dictGet "Amount in GHS" ud = none → (extractRecord ud).amount_str = "0") ∧
    (dictGet "Notes" ud = none → (extractRecord ud).notes = "") ∧
    (dictGet "Apt" ud = none →
      (extractRecord ud).apt = "108" ∧
      ∀ (nm et nts : String) (expense : PyDec)
        (post : String → PyDec → Except String AirtableResponse),
        update_airtable nm et expense nts (extractRecord ud).apt post =
          post url108 expense) := by
  refine ⟨fun h => ?_, fun h => ?_, fun h => ?_, fun h => ?_, fun h => ?_⟩
  · simp [extractRecord, dictGetD, h]
  · simp [extractRecord, dictGetD, h]
  · simp [extractRecord, dictGetD, h]
  · simp [extractRecord, dictGetD, h]
  · have ha : (extractRecord ud).apt = "108" := by simp [extractRecord, dictGetD, h]
    exact ⟨ha, fun nm et nts expense post => by
      rw [ha]
      rfl⟩

theorem completion_defaults_witness :
    (extractRecord []).name = "Unknown" ∧
    (extractRecord []).apt = "108" ∧
    update_airtable "Unknown" "Uncategorized" (.fin 0) "" (extractRecord []).apt postOk =
      postOk url108 (.fin 0) :=
  ⟨(completion_defaults []).1 rfl,
   ((completion_defaults []).2.2.2.2 rfl).1,
   ((completion_defaults []).2.2.2.2 rfl).2 "Unknown" "Uncategorized" "" (.fin 0) postOk⟩

/-- C6: the record-store submit operation selects the `"108"` endpoint
exactly when the apartment code is `"108"` and the `"103"` endpoint
exactly when it is `"103"`; any other code raises the
`"Invalid apt value"` fault, and under the precondition that the code is
one of the two fixed codes (the default being `"108"`) that fault branch
is unreachable. -/
theorem airtable_endpoint_selection (apt : String) :
    (update_airtable_url apt = .ok url108 ↔ apt = "108") ∧
    (update_airtable_url apt = .ok url103 ↔ apt = "103") ∧
    ((apt ≠ "108" ∧ apt ≠ "103") ↔
      update_airtable_url apt = .error "Invalid apt value") ∧
    (apt = "108" ∨ apt = "103" →
      update_airtable_url apt ≠ .error "Invalid apt value") := by
  by_cases h₁ : apt = "108"
  · subst h₁
    decide
  · by_cases h₂ : apt = "103"
    · subst h₂
      decide
    · refine ⟨?_, ?_, ?_, ?_⟩
      · simp [update_airtable_url, h₁, h₂]
      · simp [update_airtable_url, h₁, h₂]
      · simp [update_airtable_url, h₁, h₂]
      · intro hc
        rcases hc with hc | hc
        · exact absurd hc h₁
        · exact absurd hc h₂

theorem airtable_endpoint_selection_witness :
    update_airtable_url "107" = .error "Invalid apt value" ∧
    update_airtable_url "103" ≠ .error "Invalid apt value" ∧
    update_airtable_url "103" = .ok url103 :=
  ⟨((airtable_endpoint_selection "107").2.2.1).mp ⟨by decide, by decide⟩,
   (airtable_endpoint_selection "103").2.2.2 (Or.inr rfl),
   ((airtable_endpoint_selection "103").2.1).mpr rfl⟩

/-- C7: parsing the collected amount text yields the exact decimal value
for well-formed text (`"12.50"` yields `12.50`), and any text the
`Decimal` constructor rejects is silently coerced to exact zero; in both
cases the completion procedure proceeds to the submission and replies
normally, with no error surfaced to the user. -/
theorem amount_parse_coercion :
    parseDecimal "12.50" = some (.fin (25 / 2)) ∧
    parseAmount "12.50" = .fin (25 / 2) ∧
    parseDecimal "abc" = none ∧
    (∀ s, parseDecimal s = none → parseAmount s = .fin 0) ∧
    (∀ rate : ℚ,
      (done [("Amount in GHS", "abc")] (.ok rate) postOk).result =
        .ok "Successfully updated Airtable!" ∧
      (done [("Amount in GHS", "12.50")] (.ok rate) postOk).result =
        .ok "Successfully updated Airtable!") := by
  refine ⟨?_, ?_, rfl, fun s h => by simp [parseAmount, h], fun rate => ⟨rfl, rfl⟩⟩
  · have h : parseDecimal "12.50" = some (.fin (mantissa ['1', '2'] ['5', '0'])) := rfl
    have h₂ : digitsToNat ['1', '2', '5', '0'] = 1250 := rfl
    rw [h]
    norm_num [mantissa, h₂]
  · have h : parseAmount "12.50" = .fin (mantissa ['1', '2'] ['5', '0']) := rfl
    have h₂ : digitsToNat ['1', '2', '5', '0'] = 1250 := rfl
    rw [h]
    norm_num [mantissa, h₂]

theorem amount_parse_coercion_witness : parseAmount "xyz" = .fin 0 :=
  amount_parse_coercion.2.2.2.1 "xyz" (by decide)

/-- C8: for every rate-service payload containing a `rates` object,
`get_exchange_rate` returns the value of `rates.USD` when the `"USD"` key
is present and returns `1.0` when it is absent. -/
theorem rate_usd_default (p : RatePayload) (r : Dict ℚ) (h : p.rates = some r) :
    (∀ v, dictGet "USD" r = some v → get_exchange_rate p = .ok v) ∧
    (dictGet "USD" r = none → get_exchange_rate p = .ok 1) := by
  constructor
  · intro v hv
    simp [get_exchange_rate, h, dictGetD, hv]
  · intro hv
    simp [get_exchange_rate, h, dictGetD, hv]

theorem rate_usd_default_witness :
    get_exchange_rate ⟨some [("USD", 83 / 1000)]⟩ = .ok (83 / 1000) ∧
    get_exchange_rate ⟨some []⟩ = .ok 1 :=
  ⟨(rate_usd_default ⟨some [("USD", 83 / 1000)]⟩ [("USD", 83 / 1000)] rfl).1
      (83 / 1000) rfl,
   (rate_usd_default ⟨some []⟩ [] rfl).2 rfl⟩

/-- C9: when free-text input arrives in the free-text state but no pending
field is recorded, the handler replies with the "please try again" error
message, leaves the collected mapping unchanged, and returns to
`CHOOSING`. -/
theorem missing_pending_field (ud : Dict String) (text : String)
    (h : dictGet "choice" ud = none) :
    received_information ud text =
      (ud, "I didn't receive the category. Please try again.", .CHOOSING) := by
  simp [received_information, h]

theorem missing_pending_field_witness :
    received_information [("Notes", "n")] "hello" =
      ([("Notes", "n")], "I didn't receive the category. Please try again.",
        .CHOOSING) :=
  missing_pending_field [("Notes", "n")] "hello" (by decide)

/-- C10: the `1.0` default applies only when the `rates` object is present
but lacks a `"USD"` key; a payload with no `rates` key at all makes
`get_exchange_rate` raise a key-lookup error rather than return any
value. -/
theorem missing_rates_key_raises (p : RatePayload) :
    (p.rates = none → get_exchange_rate p = .error "KeyError: rates") ∧
    (∀ r, p.rates = some r → ∃ v, get_exchange_rate p = .ok v) := by
  constructor
  · intro h
    simp [get_exchange_rate, h]
  · intro r h
    exact ⟨dictGetD "USD" 1 r, by simp [get_exchange_rate, h]⟩

theorem missing_rates_key_raises_witness :
    get_exchange_rate ⟨none⟩ = .error "KeyError: rates" ∧
    ∃ v, get_exchange_rate ⟨some []⟩ = .ok v :=
  ⟨(missing_rates_key_raises ⟨none⟩).1 rfl,
   (missing_rates_key_raises ⟨some []⟩).2 [] rfl⟩

end ExpenseBot
